import Mathlib

/-! Verification of the accessibility-extension element pipeline.

The definitions below are a shallow embedding of the JavaScript sources:
the content script (element extraction, interaction executor, highlight
logic, orchestrator control flow, auto-speak flag), the server route
for element finding (remote ranking with local substring fallback), and
the remote ranking service result handling.
-/

/-! Section JavaScript string primitives -/

/-- JS falsy-or on strings: a || b returns a when a is non-empty. -/
def jsOr (a b : String) : String := if a = "" then b else a

/-- Substring occurrence on character lists: does needle occur inside hay
(in order, contiguously)?  Embeds JS String.prototype.includes. -/
def strOccurs (needle : List Char) : List Char → Bool
  | [] => needle.isEmpty
  | c :: rest => needle.isPrefixOf (c :: rest) || strOccurs needle rest

/-- JS a.includes(b): b occurs as a contiguous substring of a. -/
def jsIncludes (a b : String) : Bool := strOccurs b.data a.data

/-- JS s.startsWith(p). -/
def jsStartsWith (s p : String) : Bool := p.data.isPrefixOf s.data

/-- JS s.toLowerCase(), character by character. -/
def jsToLower (s : String) : String := String.mk (s.data.map Char.toLower)

/-- JS s.substring(0, 100): the first 100 units of s. -/
def substring100 (s : String) : String := String.mk (s.data.take 100)

/-! Section Data model

A DOM node as observed by the content script: the attributes and computed
style values the extraction and interaction code reads.  Absent string
attributes are modelled as the empty string, matching the JS falsy checks
used on them. -/

structure DomNode where
  tagName : String
  ariaLabel : String
  role : String
  typeAttr : String
  href : String
  domId : String
  className : String
  textContent : String
  placeholder : String
  display : String
  visibility : String
  opacity : String
  offsetWidth : Nat
  offsetHeight : Nat
deriving DecidableEq

/-- One extracted interactive element, as built by extractInteractiveElements. -/
structure Candidate where
  index : Nat
  tag : String
  text : String
  ariaLabel : String
  role : String
  type : String
  href : String
  id : String
  className : String
deriving DecidableEq

/-! Section Element extractor (content.js, isElementVisible / getElementText /
extractInteractiveElements) -/

/-- content.js isElementVisible: computed display not none, visibility not
hidden, opacity non-zero, rendered width and height positive. -/
def isElementVisible (el : DomNode) : Bool :=
  el.display != "none" && el.visibility != "hidden" && el.opacity != "0" &&
  decide (0 < el.offsetWidth) && decide (0 < el.offsetHeight)

/-- content.js getElementText: aria-label if present (returned as is),
else trimmed text content, replaced by the placeholder for INPUT elements
carrying one, truncated to 100 units. -/
def getElementText (el : DomNode) : String :=
  if el.ariaLabel ≠ "" then
    el.ariaLabel
  else
    let text := el.textContent.trim
    let text2 := if el.tagName = "INPUT" ∧ el.placeholder ≠ "" then el.placeholder else text
    substring100 text2

/-- The Candidate record built for node el at forEach position i
(content.js extractInteractiveElements, loop body). -/
def buildCandidate (i : Nat) (el : DomNode) : Candidate :=
  { index := i
    tag := jsToLower el.tagName
    text := getElementText el
    ariaLabel := el.ariaLabel
    role := el.role
    type := el.typeAttr
    href := el.href
    id := el.domId
    className := el.className }

/-- The forEach loop of extractInteractiveElements: i is the position in
the full query result; invisible nodes are skipped but still advance i. -/
def extractAux (i : Nat) : List DomNode → List Candidate
  | [] => []
  | el :: rest =>
    if isElementVisible el then buildCandidate i el :: extractAux (i + 1) rest
    else extractAux (i + 1) rest

/-- content.js extractInteractiveElements, taking as input the node list
returned by the interactive-selector query in document order. -/
def extractInteractiveElements (nodes : List DomNode) : List Candidate :=
  extractAux 0 nodes

/-! Section Matcher: remote ranking service (GroqService.findElement)

The service asks the model for an element number and parses the reply with
parseInt.  The parse result is modelled as an Option Int: none for a reply
that does not parse to a number (NaN), some n otherwise. -/

/-- Result shape returned by GroqService.findElement and by the fallback
branch of the find-element route. -/
structure FindResult where
  found : Bool
  element : Option Candidate
  elementIndex : Option Nat
  message : Option String
deriving DecidableEq

/-- GroqService.findElement, lines 68-78: a NaN parse, the -1 sentinel and
any out-of-range index all yield the same not-found result; otherwise the
candidate at the parsed index is returned. -/
def groqFindElement (elements : List Candidate) (parsed : Option Int) : FindResult :=
  match parsed with
  | none =>
    { found := false, element := none, elementIndex := none
      message := some "No matching element found" }
  | some elementIndex =>
    if elementIndex = -1 ∨ elementIndex < 0 ∨ (elements.length : Int) ≤ elementIndex then
      { found := false, element := none, elementIndex := none
        message := some "No matching element found" }
    else
      { found := true, element := elements.get? elementIndex.toNat
        elementIndex := some elementIndex.toNat, message := none }

/-! Section Matcher: find-element route with local substring fallback
(server/routes/element-finder.js) -/

/-- The label the fallback compares against: el.text, else el.ariaLabel,
else the empty string, lowercased. -/
def fallbackLabel (el : Candidate) : String :=
  jsToLower (jsOr el.text (jsOr el.ariaLabel ""))

/-- The fallback match test for one candidate: label contains the command,
or the command contains the label. -/
def fallbackMatches (commandLower : String) (el : Candidate) : Bool :=
  jsIncludes (fallbackLabel el) commandLower || jsIncludes commandLower (fallbackLabel el)

/-- The fallback scan loop: first index (in list order) whose candidate
matches, none otherwise. -/
def fallbackLoop (commandLower : String) : List Candidate → Option Nat
  | [] => none
  | el :: rest =>
    if fallbackMatches commandLower el then some 0
    else (fallbackLoop commandLower rest).map (· + 1)

/-- Outcome of the remote ranking call as seen by the route handler:
either a result or a thrown error with its message. -/
inductive RemoteOutcome where
  | ok : FindResult → RemoteOutcome
  | failure : String → RemoteOutcome
deriving DecidableEq

/-- HTTP response produced by the find-element route. -/
structure RouteResponse where
  status : Nat
  success : Bool
  found : Bool
  element : Option Candidate
  elementIndex : Option Nat
  message : Option String
  error : Option String
deriving DecidableEq

/-- The find-element route handler (element-finder.js lines 9-104):
validation, empty-elements guard, remote call with substring fallback on
failure, and response shaping. -/
def routeFindElement (command : String) (elements : List Candidate)
    (remote : RemoteOutcome) : RouteResponse :=
  if command = "" then
    { status := 400, success := false, found := false, element := none
      elementIndex := none, message := none
      error := some "command and elements array are required" }
  else if elements.isEmpty then
    { status := 200, success := true, found := false, element := none
      elementIndex := none, message := some "No interactive elements found on page"
      error := none }
  else
    let result : FindResult :=
      match remote with
      | RemoteOutcome.ok r => r
      | RemoteOutcome.failure _ =>
        match fallbackLoop (jsToLower command) elements with
        | some i =>
          { found := true, element := elements.get? i, elementIndex := some i
            message := none }
        | none =>
          { found := false, element := none, elementIndex := none
            message := some "Could not find a matching element for your command" }
    if result.found = false then
      { status := 200, success := true, found := false, element := none
        elementIndex := none
        message := some ((result.message).getD "Could not find a matching element for your command")
        error := none }
    else
      { status := 200, success := true, found := true, element := result.element
        elementIndex := result.elementIndex
        message := some ("Found: " ++
          (match result.element with
           | some el => jsOr el.text (jsOr el.ariaLabel el.tag)
           | none => ""))
        error := none }

/-! Section Interaction executor (content.js interactWithElement) -/

inductive DomAction where
  | click
  | focus
deriving DecidableEq

/-- Visible outcome of one executor invocation: the DOM action taken,
whether the one-shot autoSpeak flag was persisted, and the spoken feedback. -/
structure InteractOutcome where
  action : DomAction
  autoSpeakSet : Bool
  spoken : String
deriving DecidableEq

/-- content.js interactWithElement action dispatch (lines 393-409): click
when the command mentions click or the element is a button or link, with
the autoSpeak flag persisted for non-script links; focus for text entry;
click as the default. -/
def interactWithElement (element : DomNode) (command : String) : InteractOutcome :=
  if jsIncludes (jsToLower command) "click" || element.tagName == "BUTTON" || element.tagName == "A" then
    { action := DomAction.click
      autoSpeakSet := element.tagName == "A" && element.href != "" && !(jsStartsWith element.href "javascript")
      spoken := "Clicked." }
  else if element.tagName == "INPUT" || element.tagName == "TEXTAREA" then
    { action := DomAction.focus, autoSpeakSet := false
      spoken := "Focused on input field. You can now type." }
  else
    { action := DomAction.click, autoSpeakSet := false, spoken := "Activated." }

/-! Section Session orchestrator (content.js startVoiceCommand /
processVoiceCommand), modelled as the trace of observable effects of one
voice-command cycle. -/

inductive Effect where
  | speak : String → Effect
  | findElementCall : String → List Candidate → Effect
  | resetRecognition : Effect
  | startListening : Effect
  | interactEff : DomNode → Effect
deriving DecidableEq

/-- content.js processVoiceCommand: announce the search, call the backend
matcher, then either report failure, or speak the match message and
interact with the relocated DOM element (or report that it is gone). -/
def processVoiceCommandTrace (command : String) (elements : List Candidate)
    (result : FindResult) (located : Option DomNode) : List Effect :=
  [Effect.speak "Searching for element...", Effect.findElementCall command elements] ++
  if result.found = false then
    [Effect.speak ((result.message).getD "Could not find matching element.")]
  else
    [Effect.speak ((result.message).getD "")] ++
    match located with
    | some el => [Effect.interactEff el, Effect.speak (interactWithElement el command).spoken]
    | none => [Effect.speak "Element found but could not interact with it."]

/-- content.js startVoiceCommand: optional pending summary, listening
prompt, extraction, the empty-candidates early return, else capture starts
and a heard command (if any) runs processVoiceCommand. -/
def startVoiceCommandTrace (pendingSummary : Option String)
    (extracted : List Candidate)
    (heard : Option (String × FindResult × Option DomNode)) : List Effect :=
  (match pendingSummary with
   | some s => [Effect.speak s]
   | none => []) ++
  [Effect.speak "Listening for your command..."] ++
  if extracted.isEmpty then
    [Effect.speak "No interactive elements found on this page."]
  else
    [Effect.resetRecognition, Effect.startListening] ++
    (match heard with
     | some (cmd, result, located) => processVoiceCommandTrace cmd extracted result located
     | none => [])

/-! Section Highlight state machine (content.js highlightElement plus its
3-second timers), over discrete time.  Elements are identified by Nat.
State: the set of elements carrying the highlight css class, the
highlightedElement variable, and the pending removal timers (remaining
ticks, element). -/

structure HighlightState where
  marked : List Nat
  highlighted : Option Nat
  timers : List (Nat × Nat)
deriving DecidableEq

inductive HEvent where
  | highlight : Nat → HEvent
  | tick : HEvent
deriving DecidableEq

/-- content.js highlightElement: remove the class from the previous
highlightedElement, add it to the new element, remember it, and schedule a
removal 3 ticks from now. -/
def applyHighlight (e : Nat) (s : HighlightState) : HighlightState :=
  let m := match s.highlighted with
    | some prev => s.marked.erase prev
    | none => s.marked
  { marked := if e ∈ m then m else m ++ [e]
    highlighted := some e
    timers := s.timers ++ [(3, e)] }

/-- The body of the scheduled removal: remove the class from the element
it was created for, and clear highlightedElement only if it still points
at that element. -/
def fireTimer (e : Nat) (s : HighlightState) : HighlightState :=
  { marked := s.marked.erase e
    highlighted := if s.highlighted = some e then none else s.highlighted
    timers := s.timers }

/-- One unit of time: decrement every pending timer and fire the expired
ones in scheduling order. -/
def tickH (s : HighlightState) : HighlightState :=
  let dec := s.timers.map (fun p => (p.1 - 1, p.2))
  let fired := dec.filter (fun p => p.1 == 0)
  let rest := dec.filter (fun p => !(p.1 == 0))
  fired.foldl (fun st p => fireTimer p.2 st)
    { marked := s.marked, highlighted := s.highlighted, timers := rest }

def stepH (s : HighlightState) (e : HEvent) : HighlightState :=
  match e with
  | HEvent.highlight n => applyHighlight n s
  | HEvent.tick => tickH s

def runHighlight (s : HighlightState) (events : List HEvent) : HighlightState :=
  events.foldl stepH s

def initialHighlightState : HighlightState :=
  { marked := [], highlighted := none, timers := [] }

/-! Section One-shot autoSpeak navigation flag (content.js init lines 37-42 and
interactWithElement lines 397-400).  chrome.storage.local keyed at
autoSpeak, modelled as an Option Bool (none = key absent). -/

/-- interactWithElement: chrome.storage.local.set autoSpeak true. -/
def setAutoSpeak (_store : Option Bool) : Option Bool := some true

/-- init: read autoSpeak; when truthy, remove the key and report it seen. -/
def consumeAutoSpeak (store : Option Bool) : Bool × Option Bool :=
  match store with
  | some true => (true, none)
  | some false => (false, some false)
  | none => (false, none)

/-! Section Scratch examples -/

def sampleVisibleButton : DomNode :=
  { tagName := "BUTTON", ariaLabel := "", role := "", typeAttr := "", href := ""
    domId := "", className := "", textContent := "Search", placeholder := ""
    display := "block", visibility := "visible", opacity := "1"
    offsetWidth := 10, offsetHeight := 10 }

def sampleHiddenNode : DomNode :=
  { sampleVisibleButton with display := "none", textContent := "Hidden" }

example : (extractInteractiveElements [sampleHiddenNode, sampleVisibleButton]).map Candidate.index = [1] := by decide

def signInCandidate : Candidate :=
  { index := 0, tag := "button", text := "Sign In", ariaLabel := "", role := ""
    type := "", href := "", id := "", className := "" }

def registerCandidate : Candidate :=
  { signInCandidate with index := 1, text := "Register" }

def demoCandidates : List Candidate := [signInCandidate, registerCandidate]

example : (routeFindElement "click sign in" demoCandidates (RemoteOutcome.failure "boom")).found = true := by decide
example : (routeFindElement "click sign in" demoCandidates (RemoteOutcome.failure "boom")).elementIndex = some 0 := by decide
example : (routeFindElement "click nowhere" demoCandidates (RemoteOutcome.failure "boom")).found = false := by decide

def sampleAnchor : DomNode :=
  { sampleVisibleButton with tagName := "A", href := "https://x", textContent := "About" }

example : (interactWithElement sampleAnchor "click about").action = DomAction.click := by decide
example : (interactWithElement sampleAnchor "click about").autoSpeakSet = true := by decide

def sampleTextInput : DomNode :=
  { sampleVisibleButton with tagName := "INPUT", typeAttr := "text", textContent := "" }

example : (interactWithElement sampleTextInput "click the search box").action = DomAction.click := by decide
example : (interactWithElement sampleTextInput "type my email").action = DomAction.focus := by decide

example :
    (runHighlight initialHighlightState
      [HEvent.highlight 7, HEvent.tick, HEvent.highlight 7, HEvent.tick]).marked = [7] := by decide
example :
    (runHighlight initialHighlightState
      [HEvent.highlight 7, HEvent.tick, HEvent.highlight 7, HEvent.tick, HEvent.tick]).marked = [] := by decide

/-! Section Lemmas about the extractor -/

lemma extractAux_index_lb (nodes : List DomNode) :
    ∀ (i : Nat), ∀ c ∈ extractAux i nodes, i ≤ c.index := by
  induction nodes with
  | nil => intro i c hc; simp [extractAux] at hc
  | cons el rest ih =>
    intro i c hc
    by_cases h : isElementVisible el
    · rw [extractAux, if_pos h] at hc
      rcases List.mem_cons.mp hc with rfl | hmem
      · exact Nat.le_refl _
      · exact Nat.le_of_succ_le (ih (i + 1) c hmem)
    · rw [extractAux, if_neg h] at hc
      exact Nat.le_of_succ_le (ih (i + 1) c hc)

lemma extractAux_index_pairwise (nodes : List DomNode) :
    ∀ (i : Nat), (extractAux i nodes).Pairwise (fun a b => a.index < b.index) := by
  induction nodes with
  | nil => intro i; simp [extractAux]
  | cons el rest ih =>
    intro i
    by_cases h : isElementVisible el
    · rw [extractAux, if_pos h]
      refine List.Pairwise.cons ?_ (ih (i + 1))
      intro c hc
      exact Nat.lt_of_succ_le (extractAux_index_lb rest (i + 1) c hc)
    · rw [extractAux, if_neg h]
      exact ih (i + 1)

lemma extractAux_all_visible (nodes : List DomNode) :
    ∀ (i : Nat), (∀ el ∈ nodes, isElementVisible el = true) →
      (extractAux i nodes).map Candidate.index = List.range' i nodes.length := by
  induction nodes with
  | nil => intro i _; simp [extractAux]
  | cons el rest ih =>
    intro i hvis
    have h : isElementVisible el := hvis el (List.mem_cons_self el rest)
    rw [extractAux, if_pos h]
    simp only [List.map_cons, List.length_cons, List.range'_succ]
    refine congrArg (List.cons i) ?_
    exact ih (i + 1) (fun e he => hvis e (List.mem_cons_of_mem el he))

/-! Section Claim C1 -/

/-- Claim C1 counterexample: with a hidden node followed by a visible one,
the single extracted candidate gets index 1, so the indices of an
extraction pass are not the contiguous range 0..n-1. -/
theorem extract_indices_not_contiguous_cex :
    (extractInteractiveElements [sampleHiddenNode, sampleVisibleButton]).map Candidate.index ≠
      List.range (extractInteractiveElements [sampleHiddenNode, sampleVisibleButton]).length := by
  decide

/-- Claim C1 (amended): candidate indices are assigned in document
traversal order and are strictly increasing (hence duplicate-free), each
being the position of the surviving node in the full matched node list;
they form the contiguous range 0..n-1 whenever every matched node is
visible. -/
theorem extract_indices_strictly_increasing (nodes : List DomNode) :
    ((extractInteractiveElements nodes).map Candidate.index).Pairwise (· < ·) ∧
    ((∀ el ∈ nodes, isElementVisible el = true) →
      (extractInteractiveElements nodes).map Candidate.index = List.range nodes.length) := by
  constructor
  · exact List.pairwise_map.mpr (extractAux_index_pairwise nodes 0)
  · intro hvis
    rw [extractInteractiveElements, extractAux_all_visible nodes 0 hvis, List.range_eq_range']

/-- Claim C1 witness: on a fully visible two-node document the amended
theorem yields the contiguous index range. -/
theorem extract_indices_strictly_increasing_witness :
    (extractInteractiveElements [sampleVisibleButton, sampleVisibleButton]).map Candidate.index =
      List.range 2 :=
  (extract_indices_strictly_increasing [sampleVisibleButton, sampleVisibleButton]).2 (by decide)

/-! Section Claim C2 -/

def longAriaLabel : String := String.mk (List.replicate 101 'a')

def longAriaNode : DomNode :=
  { sampleVisibleButton with ariaLabel := longAriaLabel }

/-- Claim C2 counterexample: an explicit accessible label is returned
untruncated, so the candidate text of a node with a 101-unit aria-label
is longer than 100 units. -/
theorem getElementText_aria_label_untruncated_cex :
    100 < (getElementText longAriaNode).length := by decide

/-- Claim C2 (amended): label resolution follows aria-label, else visible
text content (replaced by the placeholder for INPUT nodes carrying one),
else empty; the visible-text and placeholder paths are truncated to 100
units, but the aria-label path is returned without truncation. -/
theorem getElementText_resolution (el : DomNode) :
    (el.ariaLabel ≠ "" → getElementText el = el.ariaLabel) ∧
    (el.ariaLabel = "" → el.tagName = "INPUT" → el.placeholder ≠ "" →
      getElementText el = substring100 el.placeholder) ∧
    (el.ariaLabel = "" → (el.tagName = "INPUT" → el.placeholder = "") →
      getElementText el = substring100 el.textContent.trim) ∧
    (el.ariaLabel = "" → (getElementText el).length ≤ 100) := by
  refine ⟨?_, ?_, ?_, ?_⟩
  · intro h; rw [getElementText, if_pos h]
  · intro h hinput hph
    rw [getElementText, if_neg (by simp [h])]
    simp only [if_pos (And.intro hinput hph)]
  · intro h hnot
    rw [getElementText, if_neg (by simp [h])]
    have : ¬ (el.tagName = "INPUT" ∧ el.placeholder ≠ "") := by
      rintro ⟨h1, h2⟩; exact h2 (hnot h1)
    simp only [if_neg this]
  · intro h
    rw [getElementText, if_neg (by simp [h])]
    by_cases hc : el.tagName = "INPUT" ∧ el.placeholder ≠ ""
    · simp only [if_pos hc, substring100]
      exact List.length_take_le 100 _
    · simp only [if_neg hc, substring100]
      exact List.length_take_le 100 _

/-- Claim C2 witness: the amended theorem evaluated on concrete nodes,
one with a short aria-label and one with only long visible text. -/
theorem getElementText_resolution_witness :
    getElementText { sampleVisibleButton with ariaLabel := "Go" } = "Go" ∧
    (getElementText { sampleVisibleButton with textContent := longAriaLabel }).length ≤ 100 :=
  ⟨(getElementText_resolution { sampleVisibleButton with ariaLabel := "Go" }).1 (by decide),
   (getElementText_resolution { sampleVisibleButton with textContent := longAriaLabel }).2.2.2
     (by decide)⟩

/-! Section Lemmas about the fallback scan -/

lemma strOccurs_nil (l : List Char) : strOccurs [] l = true := by
  cases l <;> rfl

lemma jsIncludes_empty (s : String) : jsIncludes s "" = true :=
  strOccurs_nil s.data

lemma fallbackLoop_lt_length (c : String) (l : List Candidate) :
    ∀ i, fallbackLoop c l = some i → i < l.length := by
  induction l with
  | nil => intro i h; simp [fallbackLoop] at h
  | cons el rest ih =>
    intro i h
    rw [fallbackLoop] at h
    by_cases hm : fallbackMatches c el
    · rw [if_pos hm] at h
      cases h
      simp
    · rw [if_neg hm] at h
      rcases Option.map_eq_some'.mp h with ⟨j, hj, rfl⟩
      simpa using Nat.succ_lt_succ (ih j hj)

lemma fallbackLoop_first (c : String) (l : List Candidate) :
    ∀ (i : Nat) (hi : i < l.length),
      fallbackMatches c (l.get ⟨i, hi⟩) = true →
      (∀ j (hj : j < i), fallbackMatches c (l.get ⟨j, Nat.lt_trans hj hi⟩) = false) →
      fallbackLoop c l = some i := by
  induction l with
  | nil => intro i hi; exact absurd hi (by simp)
  | cons el rest ih =>
    intro i hi hm hb
    cases i with
    | zero =>
      rw [fallbackLoop, if_pos ?_]
      exact hm
    | succ n =>
      have h0 : fallbackMatches c el = false := hb 0 (Nat.succ_pos n)
      rw [fallbackLoop, if_neg (by simp [h0])]
      have hn : n < rest.length := Nat.lt_of_succ_lt_succ hi
      have hm2 : fallbackMatches c (rest.get ⟨n, hn⟩) = true := hm
      have hb2 : ∀ j (hj : j < n),
          fallbackMatches c (rest.get ⟨j, Nat.lt_trans hj hn⟩) = false := by
        intro j hj
        exact hb (j + 1) (Nat.succ_lt_succ hj)
      rw [ih n hn hm2 hb2]
      rfl

/-! Section Claim C3 -/

/-- Claim C3: the fallback matcher scans candidates in index order and
returns the first whose lowercased label is a substring of the lowercased
command or vice versa; on the demo candidate set, "click sign in" resolves
to index 0 and "click nowhere" finds nothing. -/
theorem fallback_first_substring_match :
    (∀ (commandLower : String) (l : List Candidate) (i : Nat) (hi : i < l.length),
        fallbackMatches commandLower (l.get ⟨i, hi⟩) = true →
        (∀ j (hj : j < i), fallbackMatches commandLower (l.get ⟨j, Nat.lt_trans hj hi⟩) = false) →
        fallbackLoop commandLower l = some i) ∧
    ((routeFindElement "click sign in" demoCandidates (RemoteOutcome.failure "timeout")).found = true ∧
     (routeFindElement "click sign in" demoCandidates (RemoteOutcome.failure "timeout")).elementIndex = some 0) ∧
    (routeFindElement "click nowhere" demoCandidates (RemoteOutcome.failure "timeout")).found = false :=
  ⟨fun c l => fallbackLoop_first c l, ⟨by decide, by decide⟩, by decide⟩

/-- Claim C3 witness: the general first-match rule applied to the demo
candidate set at index 0. -/
theorem fallback_first_substring_match_witness :
    fallbackLoop (jsToLower "click sign in") demoCandidates = some 0 :=
  fallback_first_substring_match.1 (jsToLower "click sign in") demoCandidates 0
    (by decide) (by decide) (by decide)

/-! Section Claim C4 -/

/-- Claim C4: a response that does not parse to a number, or parses to an
index outside the candidate range, gives exactly the result of the -1
sentinel; and a found result always carries a valid candidate index. -/
theorem groq_out_of_range_is_no_match (elements : List Candidate) (parsed : Option Int) :
    ((parsed = none ∨ ∃ n, parsed = some n ∧ (n < 0 ∨ (elements.length : Int) ≤ n)) →
      groqFindElement elements parsed = groqFindElement elements (some (-1))) ∧
    ((groqFindElement elements parsed).found = true →
      ∃ i, (groqFindElement elements parsed).elementIndex = some i ∧ i < elements.length) := by
  constructor
  · rintro (rfl | ⟨n, rfl, hn⟩)
    · simp [groqFindElement]
    · rw [groqFindElement, groqFindElement,
        if_pos (show n = -1 ∨ n < 0 ∨ (elements.length : Int) ≤ n from Or.inr hn),
        if_pos (Or.inl rfl)]
  · intro hfound
    cases parsed with
    | none => simp [groqFindElement] at hfound
    | some n =>
      rw [groqFindElement] at hfound ⊢
      by_cases hcond : n = -1 ∨ n < 0 ∨ (elements.length : Int) ≤ n
      · rw [if_pos hcond] at hfound
        simp at hfound
      · rw [if_neg hcond] at hfound ⊢
        push_neg at hcond
        exact ⟨n.toNat, rfl, by omega⟩

/-- Claim C4 witness: index 5 against a two-candidate set behaves like the
-1 sentinel, and a valid parse yields a valid index. -/
theorem groq_out_of_range_is_no_match_witness :
    groqFindElement demoCandidates (some 5) = groqFindElement demoCandidates (some (-1)) ∧
    ∃ i, (groqFindElement demoCandidates (some 1)).elementIndex = some i ∧
      i < demoCandidates.length :=
  ⟨(groq_out_of_range_is_no_match demoCandidates (some 5)).1
      (Or.inr ⟨5, rfl, Or.inr (by decide)⟩),
   (groq_out_of_range_is_no_match demoCandidates (some 1)).2 (by decide)⟩

/-! Section Claim C10 -/

/-- Claim C10: in the fallback scan any candidate whose text and ariaLabel
are both empty matches every command (the empty label is a substring of
anything), so the first such candidate is returned whenever nothing before
it matches, shadowing every later candidate. -/
theorem fallback_empty_label_matches_all (command : String) (l : List Candidate)
    (i : Nat) (hi : i < l.length)
    (_hcmd : command ≠ "")
    (ht : (l.get ⟨i, hi⟩).text = "") (ha : (l.get ⟨i, hi⟩).ariaLabel = "")
    (hb : ∀ j (hj : j < i),
      fallbackMatches (jsToLower command) (l.get ⟨j, Nat.lt_trans hj hi⟩) = false) :
    (∀ c : Candidate, c.text = "" → c.ariaLabel = "" →
      fallbackMatches (jsToLower command) c = true) ∧
    fallbackLoop (jsToLower command) l = some i := by
  have hall : ∀ c : Candidate, c.text = "" → c.ariaLabel = "" →
      fallbackMatches (jsToLower command) c = true := by
    intro c h1 h2
    have hlabel : fallbackLabel c = "" := by
      rw [fallbackLabel, h1, h2]
      rfl
    rw [fallbackMatches, hlabel, jsIncludes_empty, Bool.or_true]
  exact ⟨hall, fallbackLoop_first _ l i hi (hall _ ht ha) hb⟩

def unlabeledCandidate : Candidate :=
  { index := 1, tag := "div", text := "", ariaLabel := "", role := "button"
    type := "", href := "", id := "", className := "" }

def shadowedSet : List Candidate :=
  [{ signInCandidate with text := "xng" }, unlabeledCandidate,
   { signInCandidate with index := 2 }]

/-- Claim C10 witness: with an unmatching first candidate, an unlabeled
second and a genuinely matching third, the unlabeled candidate wins for
the command "click sign in". -/
theorem fallback_empty_label_matches_all_witness :
    fallbackLoop (jsToLower "click sign in") shadowedSet = some 1 ∧
    fallbackMatches (jsToLower "click sign in") unlabeledCandidate = true :=
  ⟨(fallback_empty_label_matches_all "click sign in" shadowedSet 1 (by decide)
      (by decide) rfl rfl (by decide)).2,
   (fallback_empty_label_matches_all "click sign in" shadowedSet 1 (by decide)
      (by decide) rfl rfl (by decide)).1 unlabeledCandidate rfl rfl⟩

/-! Section Claim C7 -/

/-- Claim C7: when the remote ranking call fails, the route answers with
the local fallback result: HTTP 200, success, a message always present,
a response independent of the error content (no error surfaced), and a
valid candidate index whenever found is true. -/
theorem remote_failure_absorbed_by_fallback (command : String) (elements : List Candidate)
    (e : String) (hc : command ≠ "") (he : elements ≠ []) :
    (routeFindElement command elements (RemoteOutcome.failure e)).status = 200 ∧
    (routeFindElement command elements (RemoteOutcome.failure e)).success = true ∧
    (routeFindElement command elements (RemoteOutcome.failure e)).message.isSome = true ∧
    (∀ e2, routeFindElement command elements (RemoteOutcome.failure e2) =
      routeFindElement command elements (RemoteOutcome.failure e)) ∧
    ((routeFindElement command elements (RemoteOutcome.failure e)).found = true →
      ∃ i, (routeFindElement command elements (RemoteOutcome.failure e)).elementIndex = some i ∧
        i < elements.length) := by
  have hemp : elements.isEmpty = false := by
    cases elements with
    | nil => exact absurd rfl he
    | cons a t => rfl
  cases hloop : fallbackLoop (jsToLower command) elements with
  | none =>
    refine ⟨?_, ?_, ?_, ?_, ?_⟩ <;>
      simp [routeFindElement, hc, hemp, hloop]
  | some i =>
    have hi := fallbackLoop_lt_length _ _ i hloop
    refine ⟨?_, ?_, ?_, ?_, ?_⟩ <;>
      simp [routeFindElement, hc, hemp, hloop]
    exact hi

/-- Claim C7 witness: a timeout against the demo candidate set is absorbed
and answered with status 200. -/
theorem remote_failure_absorbed_by_fallback_witness :
    (routeFindElement "click sign in" demoCandidates (RemoteOutcome.failure "timeout")).status = 200 :=
  (remote_failure_absorbed_by_fallback "click sign in" demoCandidates "timeout"
    (by decide) (by decide)).1

/-! Section Claim C5 -/

/-- Claim C5: with an empty extraction result the orchestrator trace never
contains a matcher call and ends with the no-interactive-elements
announcement; the server route likewise answers an empty candidate list
without consulting the remote outcome at all. -/
theorem empty_candidates_no_matcher_call (ps : Option String)
    (heard : Option (String × FindResult × Option DomNode))
    (command : String) (r1 r2 : RemoteOutcome) (hc : command ≠ "") :
    (∀ (c : String) (els : List Candidate),
      Effect.findElementCall c els ∉ startVoiceCommandTrace ps [] heard) ∧
    (∃ pre, startVoiceCommandTrace ps [] heard =
      pre ++ [Effect.speak "No interactive elements found on this page."]) ∧
    routeFindElement command [] r1 = routeFindElement command [] r2 ∧
    (routeFindElement command [] r1).found = false ∧
    (routeFindElement command [] r1).message = some "No interactive elements found on page" := by
  refine ⟨?_, ?_, ?_, ?_, ?_⟩
  · intro c els
    cases ps <;> simp [startVoiceCommandTrace]
  · cases ps with
    | none => exact ⟨[Effect.speak "Listening for your command..."], rfl⟩
    | some s =>
      exact ⟨[Effect.speak s, Effect.speak "Listening for your command..."], rfl⟩
  · simp [routeFindElement, hc]
  · simp [routeFindElement, hc]
  · simp [routeFindElement, hc]

/-- Claim C5 witness: the empty-extraction trace with a pending summary
contains no matcher call. -/
theorem empty_candidates_no_matcher_call_witness :
    Effect.findElementCall "click sign in" demoCandidates ∉
      startVoiceCommandTrace (some "summary") [] none :=
  (empty_candidates_no_matcher_call (some "summary") none "click sign in"
    (RemoteOutcome.failure "x") (RemoteOutcome.ok ⟨false, none, none, none⟩)
    (by decide)).1 "click sign in" demoCandidates

/-! Section Claim C6 -/

/-- Claim C6 counterexample: a text input clicked by a command containing
the word click is activated, not focused, so focus does not hold for
every command on text inputs. -/
theorem input_click_command_clicks_cex :
    (interactWithElement sampleTextInput "click the search box").action = DomAction.click ∧
    (interactWithElement sampleTextInput "click the search box").action ≠ DomAction.focus := by
  decide

/-- Claim C6 (amended): an anchor with destination https://x and command
"click about" is clicked with the one-shot navigation flag set; a text
input is focused without activation for every command that does not
contain the word click. -/
theorem executor_dispatch :
    ((interactWithElement sampleAnchor "click about").action = DomAction.click ∧
     (interactWithElement sampleAnchor "click about").autoSpeakSet = true) ∧
    (∀ (el : DomNode) (command : String),
      el.tagName = "INPUT" → el.typeAttr = "text" →
      jsIncludes (jsToLower command) "click" = false →
      (interactWithElement el command).action = DomAction.focus ∧
      (interactWithElement el command).autoSpeakSet = false) := by
  constructor
  · exact ⟨by decide, by decide⟩
  · intro el command htag _ hnc
    simp [interactWithElement, htag, hnc]

/-- Claim C6 witness: a focus command on the sample text input yields
focus with no navigation flag. -/
theorem executor_dispatch_witness :
    (interactWithElement sampleTextInput "type my email").action = DomAction.focus ∧
    (interactWithElement sampleTextInput "type my email").autoSpeakSet = false :=
  executor_dispatch.2 sampleTextInput "type my email" rfl rfl (by decide)

/-! Section Claim C9 -/

/-- Claim C9: after the executor persists the flag, the next load observes
it set and clears it in the same read, so a further read without a fresh
write observes it unset and leaves the store empty. -/
theorem autoSpeak_one_shot (store : Option Bool) :
    (consumeAutoSpeak (setAutoSpeak store)).1 = true ∧
    (consumeAutoSpeak (consumeAutoSpeak (setAutoSpeak store)).2).1 = false ∧
    (consumeAutoSpeak (consumeAutoSpeak (setAutoSpeak store)).2).2 = none :=
  ⟨rfl, rfl, rfl⟩

/-! Section Lemmas about the highlight machine -/

/-- The marked set holds at most the element the highlightedElement
variable points at. -/
def InvH (s : HighlightState) : Prop :=
  s.marked = [] ∨ ∃ e, s.marked = [e] ∧ s.highlighted = some e

/-- Every pending timer fires after between 1 and n more ticks. -/
def timersBounded (n : Nat) (s : HighlightState) : Prop :=
  ∀ p ∈ s.timers, 1 ≤ p.1 ∧ p.1 ≤ n

/-- Every marked element has a pending removal timer. -/
def timersCover (s : HighlightState) : Prop :=
  ∀ e ∈ s.marked, ∃ p ∈ s.timers, p.2 = e

def GInvH (s : HighlightState) : Prop :=
  InvH s ∧ timersBounded 3 s ∧ timersCover s

lemma foldl_fire_timers (l : List (Nat × Nat)) (s : HighlightState) :
    (l.foldl (fun st p => fireTimer p.2 st) s).timers = s.timers := by
  induction l generalizing s with
  | nil => rfl
  | cons p t ih => rw [List.foldl_cons, ih]; rfl

lemma foldl_fire_marked (l : List (Nat × Nat)) (s : HighlightState) :
    (l.foldl (fun st p => fireTimer p.2 st) s).marked =
      l.foldl (fun m p => m.erase p.2) s.marked := by
  induction l generalizing s with
  | nil => rfl
  | cons p t ih => rw [List.foldl_cons, List.foldl_cons, ih]; rfl

lemma foldl_fire_highlighted (l : List (Nat × Nat)) (s : HighlightState) :
    (l.foldl (fun st p => fireTimer p.2 st) s).highlighted =
      l.foldl (fun o p => if o = some p.2 then none else o) s.highlighted := by
  induction l generalizing s with
  | nil => rfl
  | cons p t ih => rw [List.foldl_cons, List.foldl_cons, ih]; rfl

lemma foldl_erase_nil (l : List (Nat × Nat)) :
    l.foldl (fun (m : List Nat) p => m.erase p.2) [] = [] := by
  induction l with
  | nil => rfl
  | cons p t ih => rw [List.foldl_cons]; simpa using ih

lemma foldl_erase_singleton (e : Nat) (l : List (Nat × Nat)) :
    l.foldl (fun (m : List Nat) p => m.erase p.2) [e] =
      if e ∈ l.map Prod.snd then [] else [e] := by
  induction l with
  | nil => rfl
  | cons p t ih =>
    rw [List.foldl_cons]
    by_cases h : p.2 = e
    · rw [show ([e].erase p.2) = [] by simp [h], foldl_erase_nil, if_pos (by simp [h])]
    · rw [show ([e].erase p.2) = [e] by simp [List.erase_cons, Ne.symm h], ih]
      by_cases hm : e ∈ t.map Prod.snd
      · rw [if_pos hm, if_pos (by simp [hm])]
      · rw [if_neg hm, if_neg (by simp [hm, Ne.symm h])]

lemma foldl_highlighted_not_mem (e : Nat) (l : List (Nat × Nat))
    (h : e ∉ l.map Prod.snd) :
    l.foldl (fun (o : Option Nat) p => if o = some p.2 then none else o) (some e) = some e := by
  induction l with
  | nil => rfl
  | cons p t ih =>
    rw [List.foldl_cons, if_neg (by simp; intro hh; exact h (by simp [hh]))]
    exact ih (fun hm => h (by simp [List.map_cons]; exact Or.inr (by simpa using hm)))

lemma invH_applyHighlight (e : Nat) (s : HighlightState) (h : InvH s) :
    (applyHighlight e s).marked = [e] := by
  rcases h with h0 | ⟨a, hm, hh⟩
  · cases hhl : s.highlighted <;> simp [applyHighlight, h0, hhl]
  · simp [applyHighlight, hm, hh]

lemma ginv_apply (e : Nat) (s : HighlightState) (h : GInvH s) :
    GInvH (applyHighlight e s) := by
  obtain ⟨h1, h2, h3⟩ := h
  refine ⟨Or.inr ⟨e, invH_applyHighlight e s h1, rfl⟩, ?_, ?_⟩
  · intro p hp
    have : p ∈ s.timers ++ [(3, e)] := hp
    rcases List.mem_append.mp this with hl | hr
    · exact h2 p hl
    · have : p = (3, e) := by simpa using hr
      subst this
      exact ⟨by omega, by omega⟩
  · intro x hx
    rw [invH_applyHighlight e s h1] at hx
    have : x = e := by simpa using hx
    subst this
    exact ⟨(3, x), by simp [applyHighlight], rfl⟩

lemma ginv_tick_general (n : Nat) (s : HighlightState)
    (h1 : InvH s) (h2 : timersBounded (n + 1) s) (h3 : timersCover s) :
    InvH (tickH s) ∧ timersBounded n (tickH s) ∧ timersCover (tickH s) := by
  have htimers : (tickH s).timers =
      (s.timers.map (fun p => (p.1 - 1, p.2))).filter (fun p => !(p.1 == 0)) := by
    rw [tickH, foldl_fire_timers]
  have hmarked : (tickH s).marked =
      ((s.timers.map (fun p => (p.1 - 1, p.2))).filter (fun p => p.1 == 0)).foldl
        (fun m p => m.erase p.2) s.marked := by
    rw [tickH, foldl_fire_marked]
  have hhl : (tickH s).highlighted =
      ((s.timers.map (fun p => (p.1 - 1, p.2))).filter (fun p => p.1 == 0)).foldl
        (fun o p => if o = some p.2 then none else o) s.highlighted := by
    rw [tickH, foldl_fire_highlighted]
  have hbound : timersBounded n (tickH s) := by
    intro p hp
    rw [htimers] at hp
    obtain ⟨hpdec, hpne⟩ := List.mem_filter.mp hp
    rcases List.mem_map.mp hpdec with ⟨q, hq, rfl⟩
    have := h2 q hq
    have hne : ¬ (q.1 - 1 == 0) = true := by simpa using hpne
    simp only [beq_iff_eq] at hne
    exact ⟨by omega, by omega⟩
  rcases h1 with h0 | ⟨a, hma, hha⟩
  · have hm : (tickH s).marked = [] := by rw [hmarked, h0, foldl_erase_nil]
    refine ⟨Or.inl hm, hbound, ?_⟩
    intro x hx
    rw [hm] at hx
    exact absurd hx (by simp)
  · by_cases hfired : a ∈ ((s.timers.map (fun p => (p.1 - 1, p.2))).filter
        (fun p => p.1 == 0)).map Prod.snd
    · have hm : (tickH s).marked = [] := by
        rw [hmarked, hma, foldl_erase_singleton, if_pos hfired]
      refine ⟨Or.inl hm, hbound, ?_⟩
      intro x hx
      rw [hm] at hx
      exact absurd hx (by simp)
    · have hm : (tickH s).marked = [a] := by
        rw [hmarked, hma, foldl_erase_singleton, if_neg hfired]
      have hh : (tickH s).highlighted = some a := by
        rw [hhl, hha, foldl_highlighted_not_mem a _ hfired]
      refine ⟨Or.inr ⟨a, hm, hh⟩, hbound, ?_⟩
      intro x hx
      rw [hm] at hx
      have hxa : x = a := by simpa using hx
      subst hxa
      obtain ⟨q, hq, hq2⟩ := h3 x (by rw [hma]; simp)
      have hq1 : 1 ≤ q.1 ∧ q.1 ≤ n + 1 := h2 q hq
      have hdec : (q.1 - 1, x) ∈ s.timers.map (fun p => (p.1 - 1, p.2)) := by
        rcases q with ⟨qv, qe⟩
        simp only at hq2
        subst hq2
        exact List.mem_map_of_mem (fun p => (p.1 - 1, p.2)) hq
      by_cases hz : q.1 - 1 = 0
      · exfalso
        apply hfired
        refine List.mem_map.mpr ⟨(q.1 - 1, x), List.mem_filter.mpr ⟨hdec, by simp [hz]⟩, rfl⟩
      · refine ⟨(q.1 - 1, x), ?_, rfl⟩
        rw [htimers]
        exact List.mem_filter.mpr ⟨hdec, by simp [hz]⟩

lemma ginv_tick (s : HighlightState) (h : GInvH s) : GInvH (tickH s) := by
  obtain ⟨h1, h2, h3⟩ := h
  obtain ⟨g1, g2, g3⟩ := ginv_tick_general 2 s h1 (fun p hp => by have := h2 p hp; omega) h3
  exact ⟨g1, fun p hp => by have := g2 p hp; omega, g3⟩

lemma ginv_init : GInvH initialHighlightState :=
  ⟨Or.inl rfl,
   fun p hp => absurd hp (by simp [initialHighlightState]),
   fun e he => absurd he (by simp [initialHighlightState])⟩

lemma ginv_run (events : List HEvent) (s : HighlightState) (h : GInvH s) :
    GInvH (runHighlight s events) := by
  induction events generalizing s with
  | nil => exact h
  | cons ev t ih =>
    rw [runHighlight, List.foldl_cons]
    cases ev with
    | highlight n => exact ih (applyHighlight n s) (ginv_apply n s h)
    | tick => exact ih (tickH s) (ginv_tick s h)

lemma ticks_clear : ∀ (n : Nat) (s : HighlightState),
    InvH s → timersBounded n s → timersCover s →
    (runHighlight s (List.replicate n HEvent.tick)).marked = [] := by
  intro n
  induction n with
  | zero =>
    intro s h1 h2 h3
    rcases h1 with h0 | ⟨a, hma, _⟩
    · exact h0
    · exfalso
      obtain ⟨p, hp, _⟩ := h3 a (by rw [hma]; simp)
      have := h2 p hp
      omega
  | succ n ih =>
    intro s h1 h2 h3
    rw [List.replicate_succ, runHighlight, List.foldl_cons]
    obtain ⟨g1, g2, g3⟩ := ginv_tick_general n s h1 h2 h3
    exact ih (tickH s) g1 g2 g3

/-! Section Claim C8 -/

/-- Claim C8 counterexample: highlight element 7, wait one unit,
highlight it again; two units later (with no further highlight) the
marker is already gone, so a marker is not guaranteed to survive the
fixed 3-unit duration when not superseded by a new highlight. -/
theorem highlight_rehighlight_early_removal_cex :
    (runHighlight initialHighlightState
      [HEvent.highlight 7, HEvent.tick, HEvent.highlight 7, HEvent.tick]).marked = [7] ∧
    (runHighlight initialHighlightState
      [HEvent.highlight 7, HEvent.tick, HEvent.highlight 7, HEvent.tick,
       HEvent.tick]).marked = [] := by
  decide

/-- Claim C8 (amended): at most one element ever carries the marker; a new
highlight removes the previous marker before applying its own; and every
marker is removed within at most 3 time units of the last highlight (each
highlight schedules an independent removal, so re-highlighting the same
element within 3 units does not extend its marker). -/
theorem highlight_exclusivity (events : List HEvent) :
    (runHighlight initialHighlightState events).marked.length ≤ 1 ∧
    (∀ b, (applyHighlight b (runHighlight initialHighlightState events)).marked = [b]) ∧
    (runHighlight (runHighlight initialHighlightState events)
      (List.replicate 3 HEvent.tick)).marked = [] := by
  obtain ⟨h1, h2, h3⟩ := ginv_run events initialHighlightState ginv_init
  refine ⟨?_, ?_, ?_⟩
  · rcases h1 with h0 | ⟨a, hma, _⟩
    · rw [h0]; exact Nat.le_refl 0 |>.trans (by omega)
    · rw [hma]; exact Nat.le_refl 1
  · intro b
    exact invH_applyHighlight b _ h1
  · exact ticks_clear 3 _ h1 h2 h3
